import Mathlib

/-!
Verification of the CineBrain-Links client-side authentication subsystem.

Shallow embedding of:
  * `src/frontend/src/utils/token.js`   (tokenManager: credential store)
  * `src/frontend/src/api/client.js`    (apiClient response interceptor: request gateway)
  * `src/frontend/src/utils/auth.js`    (AuthService: session coordinator, retry policy,
                                         backend sync loop, logout)
  * `src/unnamed/part_008`              (historical variant: checkStorage probe)

Machine state (localStorage, module-level variables, axios defaults) is made
explicit; asynchronous interleavings are modelled as event traces over a
small-step transition function.
-/

namespace CineBrain

/-! ## localStorage model

`localStorage` is a string-keyed string store.  The underlying storage may be
unavailable (private browsing): in that state every primitive operation throws.
We model the available store as an association list and the primitive DOM
operations as `Except`-valued functions that fail on unavailable storage. -/

/-- Pure association-list write (last write wins, key replaced in place). -/
def lsSet (m : List (String × String)) (k v : String) : List (String × String) :=
  match m with
  | [] => [(k, v)]
  | (k', v') :: rest => if k' = k then (k, v) :: rest else (k', v') :: lsSet rest k v

/-- Pure association-list read. -/
def lsGet (m : List (String × String)) (k : String) : Option String :=
  match m with
  | [] => none
  | (k', v') :: rest => if k' = k then some v' else lsGet rest k

/-- Pure association-list delete. -/
def lsRemove (m : List (String × String)) (k : String) : List (String × String) :=
  match m with
  | [] => []
  | (k', v') :: rest => if k' = k then lsRemove rest k else (k', v') :: lsRemove rest k

/-- The state of the browser storage: available with contents `m`, or
unavailable/throwing (e.g. private browsing with storage disabled). -/
inductive StorageSt where
  | avail (m : List (String × String))
  | failing
  deriving Repr, DecidableEq

/-- `localStorage.getItem`: throws when storage is unavailable. -/
def getItem (s : StorageSt) (k : String) : Except String (Option String) :=
  match s with
  | .avail m => .ok (lsGet m k)
  | .failing => .error "SecurityError"

/-- `localStorage.setItem`: throws when storage is unavailable. -/
def setItem (s : StorageSt) (k v : String) : Except String StorageSt :=
  match s with
  | .avail m => .ok (.avail (lsSet m k v))
  | .failing => .error "SecurityError"

/-- `localStorage.removeItem`: throws when storage is unavailable. -/
def removeItem (s : StorageSt) (k : String) : Except String StorageSt :=
  match s with
  | .avail m => .ok (.avail (lsRemove m k))
  | .failing => .error "SecurityError"

/-! ## tokenManager (src/frontend/src/utils/token.js)

Storage keys as in the source. -/

def ACCESS_TOKEN_KEY : String := "cinbrainlinks_access_token"
def REFRESH_TOKEN_KEY : String := "cinbrainlinks_refresh_token"
def USER_KEY : String := "cinbrainlinks_user"

/-- JavaScript truthiness of a nullable string argument: `null`/`undefined`
(modelled as `none`) and the empty string are falsy; all other strings truthy.
This is the test performed by `if (accessToken)` in `tokenManager.setTokens`. -/
def jsTruthy : Option String → Bool
  | none => false
  | some s => s ≠ ""

/-- Pure core of `tokenManager.setTokens` on available storage contents:
`if (accessToken) setItem(ACCESS, ...); if (refreshToken) setItem(REFRESH, ...)`. -/
def tmSetTokensP (accessToken refreshToken : Option String)
    (m : List (String × String)) : List (String × String) :=
  let m1 := if jsTruthy accessToken then lsSet m ACCESS_TOKEN_KEY (accessToken.getD "") else m
  if jsTruthy refreshToken then lsSet m1 REFRESH_TOKEN_KEY (refreshToken.getD "") else m1

/-- Pure core of `tokenManager.clearTokens` on available storage contents:
removes the access token, refresh token and cached user keys. -/
def tmClearTokensP (m : List (String × String)) : List (String × String) :=
  lsRemove (lsRemove (lsRemove m ACCESS_TOKEN_KEY) REFRESH_TOKEN_KEY) USER_KEY

/-- `tokenManager.setTokens` (token.js lines 14-21).  There is no try/catch in
the source: storage exceptions propagate to the caller. -/
def tmSetTokens (accessToken refreshToken : Option String)
    (s : StorageSt) : Except String StorageSt := do
  let s1 ← if jsTruthy accessToken then setItem s ACCESS_TOKEN_KEY (accessToken.getD "")
           else pure s
  if jsTruthy refreshToken then setItem s1 REFRESH_TOKEN_KEY (refreshToken.getD "")
  else pure s1

/-- `tokenManager.getAccessToken` (token.js lines 26-28); no try/catch. -/
def tmGetAccessToken (s : StorageSt) : Except String (Option String) :=
  getItem s ACCESS_TOKEN_KEY

/-- `tokenManager.getRefreshToken` (token.js lines 33-35); no try/catch. -/
def tmGetRefreshToken (s : StorageSt) : Except String (Option String) :=
  getItem s REFRESH_TOKEN_KEY

/-- `tokenManager.clearTokens` (token.js lines 40-44); no try/catch. -/
def tmClearTokens (s : StorageSt) : Except String StorageSt := do
  let s1 ← removeItem s ACCESS_TOKEN_KEY
  let s2 ← removeItem s1 REFRESH_TOKEN_KEY
  removeItem s2 USER_KEY

/-- `checkStorage` from the historical auth module variant
(src/unnamed/part_008 lines 143-152): probes the storage by writing and
removing a test key, catching any exception and reporting availability as a
boolean.  This probe does fail soft. -/
def checkStorage (s : StorageSt) : Bool :=
  match setItem s "__test__" "__test__" with
  | .ok s1 =>
    match removeItem s1 "__test__" with
    | .ok _ => true
    | .error _ => false
  | .error _ => false

/-! ## Request gateway (src/frontend/src/api/client.js, response interceptor)

The 401 recovery path of the `apiClient` response interceptor, lines 37-78.
The mutable machine state it touches is localStorage (through `tokenManager`,
here assumed available — the gateway claims are not about storage failure),
`window.location.href`, and — as an observation — the number of
`axios.post(API_BASE_URL + "/api/auth/refresh", ...)` calls issued. -/

/-- Machine state visible to the gateway interceptor. -/
structure GwState where
  ls : List (String × String)
  redirect : Option String
  refreshCalls : Nat
  deriving Repr, DecidableEq

/-- An axios request config as the interceptor sees it: the `_retry` marker
(absent, i.e. `false`, on a fresh request) and its `Authorization` header. -/
structure GwReq where
  retryFlag : Bool
  authHeader : Option String
  deriving Repr, DecidableEq

/-- Environment-chosen outcome of the `POST /api/auth/refresh` call. -/
inductive RefreshOutcome where
  | ok (accessToken : String)
  | fail
  deriving Repr, DecidableEq

/-- What the interceptor does with the error. -/
inductive InterceptAction where
  /-- `return apiClient(originalRequest)`: the original request is re-issued. -/
  | retry (req : GwReq)
  /-- `Promise.reject`: `refreshErr` is true when rejecting with the refresh
  call's own error (line 67), false when rejecting with the original error. -/
  | reject (refreshErr : Bool)
  deriving Repr, DecidableEq

/-- One pass of the response-error interceptor (client.js lines 39-77) on a
request that failed with HTTP status `status` (`none` = no response). -/
def respInterceptorOnError (status : Option Nat) (req : GwReq)
    (refreshOut : RefreshOutcome) (st : GwState) : GwState × InterceptAction :=
  if status = some 401 && !req.retryFlag then
    let req1 : GwReq := { req with retryFlag := true }
    match lsGet st.ls REFRESH_TOKEN_KEY with
    | some refreshToken =>
      -- `await axios.post(`${API_BASE_URL}/api/auth/refresh`, ...)`
      let st1 : GwState := { st with refreshCalls := st.refreshCalls + 1 }
      match refreshOut with
      | .ok newAccess =>
        let st2 : GwState := { st1 with ls := tmSetTokensP (some newAccess) (some refreshToken) st1.ls }
        (st2, .retry { req1 with authHeader := some ("Bearer " ++ newAccess) })
      | .fail =>
        ({ st1 with ls := tmClearTokensP st1.ls, redirect := some "/login" }, .reject true)
    | none =>
      ({ st with ls := tmClearTokensP st.ls, redirect := some "/login" }, .reject false)
  else (st, .reject false)

/-- Final outcome of a request's lifecycle through the gateway. -/
inductive GwOutcome where
  /-- the (retried) request resolved; `h` is the header it carried. -/
  | okWith (h : Option String)
  | rejected (refreshErr : Bool)
  deriving Repr, DecidableEq

/-- Full lifecycle of one request whose first attempt failed with status
`firstStatus`: run the interceptor; if it retries, the retried request either
succeeds (`retriedStatus = none`) or fails with status `some s`, in which case
the interceptor runs again on the retried (now `_retry`-flagged) config.
Returns the final machine state, the outcome, and the number of times the
original request was re-issued. -/
def runGwRequest (firstStatus : Option Nat) (refreshOut : RefreshOutcome)
    (retriedStatus : Option Nat) (st : GwState) : GwState × GwOutcome × Nat :=
  match respInterceptorOnError firstStatus
      { retryFlag := false, authHeader := none } refreshOut st with
  | (st1, .reject e) => (st1, .rejected e, 0)
  | (st1, .retry req1) =>
    match retriedStatus with
    | none => (st1, .okWith req1.authHeader, 1)
    | some s =>
      -- error of the retried request: interceptor runs on the flagged config
      match respInterceptorOnError (some s) req1 refreshOut st1 with
      | (st2, .reject e) => (st2, .rejected e, 1)
      | (st2, .retry req2) =>
        -- unreachable: req1.retryFlag = true, the interceptor never retries it
        (st2, .okWith req2.authHeader, 2)

/-- The synchronous prefix of the 401 handler that runs before its first
`await`, for a fresh (`_retry = false`) request with status 401: mark the
config, read the refresh token, and issue the refresh call.  Under the
cooperative event-loop model, when `n` requests fail with 401 concurrently,
each of their error handlers runs this prefix before any refresh resolves —
the source keeps no shared pending-refresh handle that they could consult. -/
def concurrent401Refreshes : Nat → GwState → GwState
  | 0, st => st
  | n + 1, st =>
    let st1 :=
      match lsGet st.ls REFRESH_TOKEN_KEY with
      | some _ => { st with refreshCalls := st.refreshCalls + 1 }
      | none => { st with ls := tmClearTokensP st.ls, redirect := some "/login" }
    concurrent401Refreshes n st1

/-! ## Retry policy (src/frontend/src/utils/auth.js, lines 35-97)

`MAX_RETRIES`, `RETRY_DELAY` and the default-axios response interceptor's
retry decision and backoff delay. -/

def MAX_RETRIES : Nat := 2
def RETRY_DELAY : Nat := 1000

/-- An axios error as classified by the retry interceptor: its `code` and
whether a response was received (`response` carries the HTTP status). -/
structure AxiosError where
  code : Option String
  response : Option Nat
  deriving Repr, DecidableEq

/-- The retry decision (auth.js lines 78-81): retry only while fewer than
`MAX_RETRIES` retries used, the error has no response, and the code marks a
timeout or network failure. -/
def shouldRetry (retryCount : Nat) (e : AxiosError) : Bool :=
  decide (retryCount < MAX_RETRIES) && e.response.isNone &&
    (e.code == some "ECONNABORTED" || e.code == some "NETWORK_ERROR")

/-- Backoff before the k-th retry (auth.js line 89):
`RETRY_DELAY * Math.pow(2, config.retry - 1)` where `config.retry = k` after
the increment. -/
def retryDelayMs (k : Nat) : Nat := RETRY_DELAY * 2 ^ (k - 1)

/-- Number of attempts made from retry counter `r` when every attempt fails
with the same error `e` (the interceptor re-issues `axios(config)` as long as
`shouldRetry` holds). -/
def attemptsFrom (e : AxiosError) (r : Nat) : Nat :=
  if h : shouldRetry r e then 1 + attemptsFrom e (r + 1) else 1
termination_by MAX_RETRIES - r
decreasing_by
  simp only [shouldRetry, Bool.and_eq_true, decide_eq_true_eq] at h
  omega

/-- The delays slept between attempts, from retry counter `r`, when every
attempt fails with error `e`. -/
def delaysFrom (e : AxiosError) (r : Nat) : List Nat :=
  if h : shouldRetry r e then retryDelayMs (r + 1) :: delaysFrom e (r + 1) else []
termination_by MAX_RETRIES - r
decreasing_by
  simp only [shouldRetry, Bool.and_eq_true, decide_eq_true_eq] at h
  omega

/-- The error produced by an attempt that times out (axios: `ECONNABORTED`,
no response object). -/
def timeoutErr : AxiosError := { code := some "ECONNABORTED", response := none }

/-! ## Session coordinator (src/frontend/src/utils/auth.js)

The module-level mutable state is `currentUser` plus the identity provider's
own `auth.currentUser`.  `handleSuccessfulAuth` (lines 187-271) publishes a
Firebase-derived record, then awaits the backend sync; `onAuthStateChanged`
(lines 274-291) and `AuthService.logout` (lines 509-534) null it out. -/

/-- Diagnostic recorded as `currentUser._syncError` on final sync failure
(auth.js lines 253-256). -/
structure SyncErr where
  message : String
  timestamp : String
  deriving Repr, DecidableEq

/-- The published session snapshot (the module-level `currentUser`). -/
structure UserRec where
  uid : String
  email : String
  name : String
  /-- fields were adopted from `response.data.data` of `/auth/me` -/
  fromBackend : Bool
  /-- `_syncedWithBackend` -/
  syncedWithBackend : Bool
  /-- `_syncPending` -/
  syncPending : Bool
  /-- `_syncError` -/
  syncError : Option SyncErr
  deriving Repr, DecidableEq

/-- The spec's `syncState` enum, read off the snapshot's flags. -/
inductive SyncStateE where
  | syncing
  | synced
  | syncFailed
  deriving Repr, DecidableEq

/-- Sync status of a non-null snapshot. -/
def statusOf (u : UserRec) : SyncStateE :=
  if u.syncPending then .syncing
  else if u.syncedWithBackend then .synced
  else .syncFailed

/-- A profile record returned by the backend's `/auth/me`. -/
structure BackendProfile where
  uid : String
  email : String
  name : String
  deriving Repr, DecidableEq

/-- The snapshot published immediately after a successful token fetch
(auth.js lines 195-207): identity-provider data, `_syncPending = true`. -/
def fbSnapshot (uid email name : String) : UserRec :=
  { uid := uid, email := email, name := name, fromBackend := false,
    syncedWithBackend := false, syncPending := true, syncError := none }

/-- The snapshot adopted on a successful backend sync (auth.js lines 226-231):
`{...response.data.data, _syncedWithBackend: true, _syncPending: false}`. -/
def backendSnapshot (p : BackendProfile) : UserRec :=
  { uid := p.uid, email := p.email, name := p.name, fromBackend := true,
    syncedWithBackend := true, syncPending := false, syncError := none }

/-! ### The bounded backend sync loop (auth.js lines 213-262)

`while (syncAttempts < 2 && !syncSuccess)`: each attempt either resolves with
a 2xx success envelope (adopted) or fails (non-success envelope throws, or
axios rejects); on the final failure the Firebase-derived snapshot is kept
and its `_sync*` fields are overwritten. -/

/-- Outcome of one `axios.get('/auth/me', ...)` attempt. -/
inductive AttemptOutcome where
  /-- `response.status === 200 && response.data.success` -/
  | respOk (p : BackendProfile)
  /-- resolved but not a success envelope: `throw new Error(...)` -/
  | respBad (msg : String)
  /-- axios rejected (network error, timeout, 5xx) -/
  | netErr (msg : String)
  deriving Repr, DecidableEq

/-- Whether an attempt fails (is caught by the loop's `catch`). -/
def attemptFails : AttemptOutcome → Bool
  | .respOk _ => false
  | _ => true

/-- The failure message of an attempt (`backendError.message`). -/
def attemptMsg : AttemptOutcome → String
  | .respOk _ => ""
  | .respBad m => m
  | .netErr m => m

/-- The sync loop, from attempt counter `attempts`, given the per-attempt
outcomes and the wall-clock `ts` captured on final failure
(`new Date().toISOString()`).  Returns the final `currentUser`. -/
def syncLoopGo (fb : UserRec) (ts : String) (outcomes : Nat → AttemptOutcome) :
    Nat → UserRec
  | attempts =>
    if _h : attempts < 2 then
      match outcomes attempts with
      | .respOk p => backendSnapshot p
      | o =>
        if attempts + 1 < 2 then syncLoopGo fb ts outcomes (attempts + 1)
        else { fb with syncedWithBackend := false, syncPending := false,
                       syncError := some { message := attemptMsg o, timestamp := ts } }
    else fb
termination_by attempts => 2 - attempts

/-- The backend sync phase of `handleSuccessfulAuth`, starting at attempt 0. -/
def syncLoop (fb : UserRec) (ts : String) (outcomes : Nat → AttemptOutcome) : UserRec :=
  syncLoopGo fb ts outcomes 0

/-! ### Interleaving model

Event trace over the module state.  Each event is one atomic segment of code
between suspension points; the environment chooses which (enabled) event
resolves next.  Crucially, `AuthService.logout` does not cancel the pending
`/auth/me` promise: the sync continuation stays enabled after logout and, on
resolution, writes `currentUser` and notifies listeners without any epoch or
generation check (auth.js lines 225-237 consult nothing but the response). -/

/-- Module state of auth.js: the identity provider's `auth.currentUser`
(by uid), the published `currentUser`, the uid of an in-flight backend sync
continuation, and the log of listener notifications. -/
structure AuthMState where
  fbUser : Option String
  currentUser : Option UserRec
  inflightSync : Option String
  notifications : List (Option UserRec)
  deriving Repr, DecidableEq

/-- Module state at load: signed out, nothing published. -/
def initAuthState : AuthMState :=
  { fbUser := none, currentUser := none, inflightSync := none, notifications := [] }

/-- Events (atomic code segments at await granularity). -/
inductive Ev where
  /-- identity-provider sign-in succeeded and `handleSuccessfulAuth` ran up to
  its first publication: token fetch ok, Firebase snapshot published and
  listeners notified, backend sync dispatched (lines 191-220). -/
  | signInOk (uid email name : String)
  /-- identity-provider sign-in succeeded but `firebaseUser.getIdToken()`
  threw: outer catch sets `currentUser = null` (line 267), rethrows; the
  `onAuthStateChanged` handler catches and notifies with null (lines 278-290). -/
  | signInTokenFail (uid : String)
  /-- the awaited `/auth/me` of the in-flight sync resolved 200/success: the
  backend snapshot is written to `currentUser` unconditionally and listeners
  are notified (lines 225-237). -/
  | syncOk (p : BackendProfile)
  /-- the in-flight sync's final attempt failed: the `_sync*` fields of
  `currentUser` are mutated and listeners notified (lines 248-259); if
  `currentUser` is null the field write throws and the outer catch leaves it
  null. -/
  | syncFail (msg ts : String)
  /-- `AuthService.logout` completed with `signOut` succeeding, and the
  provider fired `onAuthStateChanged(null)`: `currentUser = null` published
  (lines 284-290, 509-526).  The pending sync promise is NOT cancelled. -/
  | signOutDone
  deriving Repr, DecidableEq

/-- One step of the module state. -/
def step (st : AuthMState) (e : Ev) : AuthMState :=
  match e with
  | .signInOk uid email name =>
    let u := fbSnapshot uid email name
    { st with fbUser := some uid, currentUser := some u, inflightSync := some uid,
              notifications := st.notifications ++ [some u] }
  | .signInTokenFail uid =>
    { st with fbUser := some uid, currentUser := none, inflightSync := none,
              notifications := st.notifications ++ [none] }
  | .syncOk p =>
    match st.inflightSync with
    | some _ =>
      let u := backendSnapshot p
      { st with currentUser := some u, inflightSync := none,
                notifications := st.notifications ++ [some u] }
    | none => st  -- no continuation pending: event cannot occur
  | .syncFail msg ts =>
    match st.inflightSync with
    | some _ =>
      match st.currentUser with
      | some u =>
        let u1 := { u with syncedWithBackend := false, syncPending := false,
                           syncError := some { message := msg, timestamp := ts } }
        { st with currentUser := some u1, inflightSync := none,
                  notifications := st.notifications ++ [some u1] }
      | none =>
        -- `currentUser._syncedWithBackend = false` throws on null; the outer
        -- catch (line 265-269) sets currentUser = null and the state-change
        -- handler notifies with null
        { st with currentUser := none, inflightSync := none,
                  notifications := st.notifications ++ [none] }
    | none => st
  | .signOutDone =>
    { st with fbUser := none, currentUser := none,
              notifications := st.notifications ++ [none] }

/-- Run a trace of events from a state. -/
def runTrace (st : AuthMState) : List Ev → AuthMState
  | [] => st
  | e :: es => runTrace (step st e) es

/-- A run is clean when the token fetch never fails and no sync continuation
resolves after the provider session is gone (i.e. after logout). -/
def cleanRun (st : AuthMState) : List Ev → Bool
  | [] => true
  | e :: es =>
    (match e with
     | .signInTokenFail _ => false
     | .syncOk _ => st.fbUser.isSome
     | .syncFail _ _ => st.fbUser.isSome
     | _ => true) && cleanRun (step st e) es

/-- The spec's P1 invariant on a module state. -/
def sessionInv (st : AuthMState) : Prop :=
  (st.fbUser = none ↔ st.currentUser = none)

instance (st : AuthMState) : Decidable (sessionInv st) := by
  unfold sessionInv; infer_instance

/-! ### AuthService.logout (auth.js lines 509-534) and AuthProvider.logout
(token.js AuthProvider, lines 136-146 of the combined file) -/

/-- State touched by `AuthService.logout`. -/
structure SvcState where
  /-- `axios.defaults.headers.common['Authorization']` -/
  authHeader : Option String
  /-- `localStorage` `rememberMe` key -/
  rememberMe : Option String
  /-- `sessionStorage` contents -/
  sessionData : List (String × String)
  /-- periodic token-refresh interval running -/
  refreshTimer : Bool
  /-- warmup interval running -/
  warmupTimer : Bool
  currentUser : Option UserRec
  /-- identity provider signed in -/
  fbSignedIn : Bool
  deriving Repr, DecidableEq

/-- `AuthService.logout`: everything is inside the `try`; when
`signOut(auth)` throws, the catch returns a failure result and none of the
cleanup runs. -/
def serviceLogout (signOutOk : Bool) (st : SvcState) : SvcState × Bool :=
  if signOutOk then
    ({ authHeader := none, rememberMe := none, sessionData := [],
       refreshTimer := false, warmupTimer := false, currentUser := none,
       fbSignedIn := false }, true)
  else (st, false)

/-- `AuthProvider.logout` from token.js: `try { await api.auth.logout() }
catch {...} finally { tokenManager.clearTokens(); setUser(null) }` — the
`finally` clears regardless of the API call's outcome. -/
def providerLogout (apiOk : Bool) (ls : List (String × String))
    (user : Option UserRec) : List (String × String) × Option UserRec :=
  let _ := apiOk  -- outcome of api.auth.logout() is caught and ignored
  let _ := user
  (tmClearTokensP ls, none)

/-! ## Association-list lemmas -/

theorem lsGet_lsSet_self (m : List (String × String)) (k v : String) :
    lsGet (lsSet m k v) k = some v := by
  induction m with
  | nil => simp [lsSet, lsGet]
  | cons p rest ih =>
    obtain ⟨k', v'⟩ := p
    by_cases h : k' = k
    · simp [lsSet, lsGet, h]
    · simp [lsSet, lsGet, h, ih]

theorem lsGet_lsSet_other (m : List (String × String)) (k v k' : String)
    (h : k' ≠ k) : lsGet (lsSet m k v) k' = lsGet m k' := by
  have hk : k ≠ k' := Ne.symm h
  induction m with
  | nil => simp [lsSet, lsGet, hk]
  | cons p rest ih =>
    obtain ⟨k₀, v₀⟩ := p
    by_cases h₀ : k₀ = k
    · subst h₀
      simp [lsSet, lsGet, hk]
    · simp [lsSet, lsGet, h₀, ih]

theorem lsGet_lsRemove_self (m : List (String × String)) (k : String) :
    lsGet (lsRemove m k) k = none := by
  induction m with
  | nil => simp [lsRemove, lsGet]
  | cons p rest ih =>
    obtain ⟨k₀, v₀⟩ := p
    by_cases h : k₀ = k
    · simp [lsRemove, lsGet, h, ih]
    · simp [lsRemove, lsGet, h, ih]

theorem lsGet_lsRemove_other (m : List (String × String)) (k k' : String)
    (h : k' ≠ k) : lsGet (lsRemove m k) k' = lsGet m k' := by
  have hk : k ≠ k' := Ne.symm h
  induction m with
  | nil => simp [lsRemove, lsGet]
  | cons p rest ih =>
    obtain ⟨k₀, v₀⟩ := p
    by_cases h₀ : k₀ = k
    · subst h₀
      simp [lsRemove, lsGet, hk, ih]
    · simp [lsRemove, lsGet, h₀, ih]

/-- The three tokenManager keys are pairwise distinct. -/
theorem tm_keys_distinct :
    ACCESS_TOKEN_KEY ≠ REFRESH_TOKEN_KEY ∧ ACCESS_TOKEN_KEY ≠ USER_KEY ∧
    REFRESH_TOKEN_KEY ≠ USER_KEY := by decide

/-- After `clearTokens`, none of the three auth keys is present, and every
other key is untouched. -/
theorem tmClearTokensP_spec (m : List (String × String)) :
    lsGet (tmClearTokensP m) ACCESS_TOKEN_KEY = none ∧
    lsGet (tmClearTokensP m) REFRESH_TOKEN_KEY = none ∧
    lsGet (tmClearTokensP m) USER_KEY = none := by
  refine ⟨?_, ?_, ?_⟩
  · unfold tmClearTokensP
    rw [lsGet_lsRemove_other _ _ _ tm_keys_distinct.2.1,
        lsGet_lsRemove_other _ _ _ tm_keys_distinct.1,
        lsGet_lsRemove_self]
  · unfold tmClearTokensP
    rw [lsGet_lsRemove_other _ _ _ tm_keys_distinct.2.2, lsGet_lsRemove_self]
  · unfold tmClearTokensP
    rw [lsGet_lsRemove_self]

/-- Helper: a truthy nullable string is `some` of its default-extracted value. -/
theorem jsTruthy_getD (a : Option String) (h : jsTruthy a = true) :
    a = some (a.getD "") := by
  cases a with
  | none => simp [jsTruthy] at h
  | some s => rfl

/-! ## Claim theorems -/

/-- C9 counterexample: with unavailable (throwing) storage, the Credential
Store read `tokenManager.getAccessToken` does not return null — it propagates
the storage exception; `setTokens` and `clearTokens` likewise throw rather
than acting as no-ops.  This refutes the claim that all operations fail soft
for every state of the underlying storage. -/
theorem c9_counterexample_storage_throws :
    tmGetAccessToken StorageSt.failing ≠ Except.ok none ∧
    tmGetAccessToken StorageSt.failing = Except.error "SecurityError" ∧
    tmGetRefreshToken StorageSt.failing = Except.error "SecurityError" ∧
    tmSetTokens (some "a") (some "r") StorageSt.failing = Except.error "SecurityError" ∧
    tmClearTokens StorageSt.failing = Except.error "SecurityError" := by
  refine ⟨?_, rfl, rfl, ?_, rfl⟩
  · intro h
    simp [tmGetAccessToken, getItem] at h
  · rfl

/-- C9 amended: `tokenManager` assumes storage is available.  When the
underlying storage is available, reads return the stored value or null and
`setTokens`/`clearTokens` succeed without throwing; when the storage throws,
every `tokenManager` operation propagates the exception (see the
counterexample).  Only the `checkStorage` availability probe of the historical
auth module fails soft, reporting unavailability as `false`. -/
theorem tokenManager_available_storage_ok :
    ∀ (m : List (String × String)) (a r : Option String),
      tmGetAccessToken (.avail m) = .ok (lsGet m ACCESS_TOKEN_KEY) ∧
      tmGetRefreshToken (.avail m) = .ok (lsGet m REFRESH_TOKEN_KEY) ∧
      tmSetTokens a r (.avail m) = .ok (.avail (tmSetTokensP a r m)) ∧
      tmClearTokens (.avail m) = .ok (.avail (tmClearTokensP m)) ∧
      checkStorage (.avail m) = true ∧
      checkStorage .failing = false := by
  intro m a r
  refine ⟨rfl, rfl, ?_, rfl, rfl, rfl⟩
  unfold tmSetTokens tmSetTokensP
  cases hA : jsTruthy a <;> cases hR : jsTruthy r <;> rfl

/-- C10 counterexample: `setTokens` tests JavaScript truthiness, not only
null/undefined.  The empty string is a non-null access token, yet
`setTokens("", null)` leaves the stored access token unchanged instead of
overwriting it. -/
theorem c10_counterexample_empty_string_token :
    (some "" ≠ (none : Option String)) ∧
    tmSetTokensP (some "") none [(ACCESS_TOKEN_KEY, "oldAccess")] =
      [(ACCESS_TOKEN_KEY, "oldAccess")] ∧
    lsGet (tmSetTokensP (some "") none [(ACCESS_TOKEN_KEY, "oldAccess")])
      ACCESS_TOKEN_KEY = some "oldAccess" := by
  refine ⟨by simp, rfl, rfl⟩

/-- C10 amended: for every call `tokenManager.setTokens(accessToken,
refreshToken)`, a falsy (null, undefined or empty-string) `accessToken`
leaves the stored access token unchanged and a falsy `refreshToken` leaves
the stored refresh token unchanged; a truthy (non-empty) argument overwrites
exactly its own key, and the other token key and the cached user record are
never touched by the argument for the opposite key. -/
theorem tmSetTokens_partial_update_frame :
    ∀ (a r : Option String) (m : List (String × String)),
      lsGet (tmSetTokensP a r m) USER_KEY = lsGet m USER_KEY ∧
      lsGet (tmSetTokensP a r m) ACCESS_TOKEN_KEY =
        (if jsTruthy a then a else lsGet m ACCESS_TOKEN_KEY) ∧
      lsGet (tmSetTokensP a r m) REFRESH_TOKEN_KEY =
        (if jsTruthy r then r else lsGet m REFRESH_TOKEN_KEY) := by
  intro a r m
  have hUA : USER_KEY ≠ ACCESS_TOKEN_KEY := Ne.symm tm_keys_distinct.2.1
  have hUR : USER_KEY ≠ REFRESH_TOKEN_KEY := Ne.symm tm_keys_distinct.2.2
  have hAR : ACCESS_TOKEN_KEY ≠ REFRESH_TOKEN_KEY := tm_keys_distinct.1
  have hRA : REFRESH_TOKEN_KEY ≠ ACCESS_TOKEN_KEY := Ne.symm tm_keys_distinct.1
  unfold tmSetTokensP
  cases hA : jsTruthy a <;> cases hR : jsTruthy r <;>
    simp only [Bool.false_eq_true, eq_self_iff_true, if_true, if_false]
  · exact ⟨trivial, trivial, trivial⟩
  · refine ⟨?_, ?_, ?_⟩
    · exact lsGet_lsSet_other m REFRESH_TOKEN_KEY (r.getD "") USER_KEY hUR
    · exact lsGet_lsSet_other m REFRESH_TOKEN_KEY (r.getD "") ACCESS_TOKEN_KEY hAR
    · rw [lsGet_lsSet_self]
      exact (jsTruthy_getD r hR).symm
  · refine ⟨?_, ?_, ?_⟩
    · exact lsGet_lsSet_other m ACCESS_TOKEN_KEY (a.getD "") USER_KEY hUA
    · rw [lsGet_lsSet_self]
      exact (jsTruthy_getD a hA).symm
    · exact lsGet_lsSet_other m ACCESS_TOKEN_KEY (a.getD "") REFRESH_TOKEN_KEY hRA
  · refine ⟨?_, ?_, ?_⟩
    · rw [lsGet_lsSet_other _ _ _ _ hUR, lsGet_lsSet_other _ _ _ _ hUA]
    · rw [lsGet_lsSet_other _ _ _ _ hAR, lsGet_lsSet_self]
      exact (jsTruthy_getD a hA).symm
    · rw [lsGet_lsSet_self]
      exact (jsTruthy_getD r hR).symm

/-- A gateway machine state with a refresh token stored and no refresh calls
issued yet. -/
def gwReady : GwState :=
  { ls := [(REFRESH_TOKEN_KEY, "rt0")], redirect := none, refreshCalls := 0 }

/-- C2 counterexample: the apiClient 401 handler keeps no pending-refresh
handle for requests to attach to.  With a refresh token stored and no refresh
in flight, two requests failing concurrently with 401 each issue their own
`POST /api/auth/refresh` — two refresh calls, not exactly one. -/
theorem c2_counterexample_two_refreshes :
    (concurrent401Refreshes 2 gwReady).refreshCalls = 2 ∧
    (concurrent401Refreshes 2 gwReady).refreshCalls ≠ 1 := by
  constructor <;> decide

/-- C2 amended: refresh is not single-flight.  For every N requests that
concurrently fail with 401 while a refresh token is stored (and none of them
has been retried), each failing request issues its own refresh call before
any resolves, so exactly N calls to `POST /api/auth/refresh` are issued. -/
theorem concurrent401_one_refresh_each (n : Nat) (st : GwState) (rt : String)
    (h : lsGet st.ls REFRESH_TOKEN_KEY = some rt) :
    (concurrent401Refreshes n st).refreshCalls = st.refreshCalls + n := by
  induction n generalizing st with
  | zero => simp [concurrent401Refreshes]
  | succ k ih =>
    unfold concurrent401Refreshes
    rw [h]
    rw [ih { st with refreshCalls := st.refreshCalls + 1 } h]
    show st.refreshCalls + 1 + k = st.refreshCalls + (k + 1)
    omega

/-- Witness for the amended C2 theorem at N = 2 from `gwReady`. -/
theorem concurrent401_one_refresh_each_witness :
    (concurrent401Refreshes 2 gwReady).refreshCalls = gwReady.refreshCalls + 2 :=
  concurrent401_one_refresh_each 2 gwReady "rt0" (by decide)

/-- C3: the 401 recovery runs at most once per request.  With a refresh token
stored: (i) when the refresh succeeds and the retried request succeeds, the
original request is re-issued exactly once, carrying the new bearer
credential, with exactly one refresh call, and the new tokens are stored;
(ii) when the retried instance fails again — with 401 or any other status —
the interceptor does not refresh or retry a second time: the error propagates
to the caller, the refresh and retry counts stay at one.  The `apiClient`
instance carries no retry-policy interceptor, so no retry-policy setting can
add further attempts. -/
theorem gateway_401_recovery_at_most_once (st : GwState) (rt tk : String) (s : Nat)
    (h : lsGet st.ls REFRESH_TOKEN_KEY = some rt) :
    (runGwRequest (some 401) (.ok tk) none st =
      ({ st with refreshCalls := st.refreshCalls + 1,
                 ls := tmSetTokensP (some tk) (some rt) st.ls },
       .okWith (some ("Bearer " ++ tk)), 1)) ∧
    ((runGwRequest (some 401) (.ok tk) (some s) st).2.1 = .rejected false ∧
     (runGwRequest (some 401) (.ok tk) (some s) st).2.2 = 1 ∧
     (runGwRequest (some 401) (.ok tk) (some s) st).1.refreshCalls =
       st.refreshCalls + 1) := by
  have hstep : respInterceptorOnError (some 401)
      { retryFlag := false, authHeader := none } (.ok tk) st =
      ({ st with refreshCalls := st.refreshCalls + 1,
                 ls := tmSetTokensP (some tk) (some rt) st.ls },
       .retry { retryFlag := true, authHeader := some ("Bearer " ++ tk) }) := by
    unfold respInterceptorOnError
    rw [h]
    rfl
  have hstep2 : ∀ ro, respInterceptorOnError (some s)
      { retryFlag := true, authHeader := some ("Bearer " ++ tk) } ro
      { st with refreshCalls := st.refreshCalls + 1,
                ls := tmSetTokensP (some tk) (some rt) st.ls } =
      ({ st with refreshCalls := st.refreshCalls + 1,
                 ls := tmSetTokensP (some tk) (some rt) st.ls }, .reject false) := by
    intro ro
    unfold respInterceptorOnError
    simp
  refine ⟨?_, ?_⟩
  · simp only [runGwRequest, hstep]
  · simp only [runGwRequest, hstep, hstep2]
    exact ⟨trivial, trivial, trivial⟩

/-- Witness for C3 at a concrete ready state. -/
theorem gateway_401_recovery_at_most_once_witness :
    (runGwRequest (some 401) (.ok "tk1") none gwReady).2.2 = 1 ∧
    (runGwRequest (some 401) (.ok "tk1") (some 401) gwReady).2.1 =
      .rejected false := by
  have h := gateway_401_recovery_at_most_once gwReady "rt0" "tk1" 401 (by decide)
  exact ⟨by rw [h.1], h.2.1⟩

/-- C4: when the 401-triggered refresh fails, or no refresh token is stored,
the gateway clears all stored credentials (access token, refresh token,
cached user), redirects the client to the login entry point, and rejects the
request so the failure surfaces to the caller. -/
theorem gateway_refresh_failure_forces_logout (st : GwState) (rt : String) :
    ((lsGet st.ls REFRESH_TOKEN_KEY = some rt →
       runGwRequest (some 401) .fail none st =
         ({ st with refreshCalls := st.refreshCalls + 1, ls := tmClearTokensP st.ls,
                    redirect := some "/login" }, .rejected true, 0)) ∧
     (lsGet st.ls REFRESH_TOKEN_KEY = none →
       runGwRequest (some 401) .fail none st =
         ({ st with ls := tmClearTokensP st.ls, redirect := some "/login" },
          .rejected false, 0))) ∧
    (lsGet (tmClearTokensP st.ls) ACCESS_TOKEN_KEY = none ∧
     lsGet (tmClearTokensP st.ls) REFRESH_TOKEN_KEY = none ∧
     lsGet (tmClearTokensP st.ls) USER_KEY = none) := by
  refine ⟨⟨?_, ?_⟩, tmClearTokensP_spec st.ls⟩
  · intro h
    unfold runGwRequest respInterceptorOnError
    rw [h]
    rfl
  · intro h
    unfold runGwRequest respInterceptorOnError
    rw [h]
    rfl

/-- Witness for C4: both branches evaluated at concrete states. -/
theorem gateway_refresh_failure_forces_logout_witness :
    runGwRequest (some 401) .fail none gwReady =
      ({ gwReady with refreshCalls := 1, ls := tmClearTokensP gwReady.ls,
                      redirect := some "/login" }, .rejected true, 0) ∧
    runGwRequest (some 401) .fail none
        { ls := [], redirect := none, refreshCalls := 0 } =
      ({ ls := [], redirect := some "/login", refreshCalls := 0 },
       .rejected false, 0) := by
  have h1 := (gateway_refresh_failure_forces_logout gwReady "rt0").1.1 (by decide)
  have h2 := (gateway_refresh_failure_forces_logout
    { ls := [], redirect := none, refreshCalls := 0 } "rt0").1.2 (by decide)
  exact ⟨h1, by rw [h2]; decide⟩

/-- C7: retry policy.  A failed call is retried iff its error is classified
transient — no HTTP response and a timeout/network code — and fewer than
`MAX_RETRIES` retries have been used; an error carrying any HTTP response
(in particular every 4xx) is never retried; the delays slept by a call that
always times out are exactly `RETRY_DELAY * 2^(k-1)` for the k-th retry,
deterministic and strictly increasing; such a call is attempted exactly
`MAX_RETRIES + 1` times in total (the spec's `maxAttempts`, default 3). -/
theorem retry_policy_transient_only_bounded_backoff :
    (∀ (r : Nat) (e : AxiosError),
       shouldRetry r e = true ↔
         (r < MAX_RETRIES ∧ e.response = none ∧
          (e.code = some "ECONNABORTED" ∨ e.code = some "NETWORK_ERROR"))) ∧
    (∀ (r s : Nat) (c : Option String),
       shouldRetry r { code := c, response := some s } = false) ∧
    attemptsFrom timeoutErr 0 = MAX_RETRIES + 1 ∧
    delaysFrom timeoutErr 0 =
      [RETRY_DELAY * 2 ^ 0, RETRY_DELAY * 2 ^ 1] ∧
    List.Chain' (· < ·) (delaysFrom timeoutErr 0) := by
  have hdelays : delaysFrom timeoutErr 0 = [1000, 2000] := by
    rw [delaysFrom, dif_pos (by decide), delaysFrom, dif_pos (by decide),
        delaysFrom, dif_neg (by decide)]
    decide
  refine ⟨?_, ?_, ?_, ?_, ?_⟩
  · intro r e
    simp only [shouldRetry, Bool.and_eq_true, decide_eq_true_eq, Bool.or_eq_true,
      beq_iff_eq, Option.isNone_iff_eq_none, and_assoc]
  · intro r s c
    simp [shouldRetry]
  · rw [attemptsFrom, dif_pos (by decide), attemptsFrom, dif_pos (by decide),
        attemptsFrom, dif_neg (by decide)]
    decide
  · rw [hdelays]
    decide
  · rw [hdelays]
    simp [List.chain'_cons]

/-- Witness for C7 at concrete inputs: a first timeout is retried and a 404
response is not. -/
theorem retry_policy_witness :
    shouldRetry 0 timeoutErr = true ∧
    shouldRetry 0 { code := none, response := some 404 } = false := by
  constructor
  · exact (retry_policy_transient_only_bounded_backoff.1 0 timeoutErr).mpr
      (by exact ⟨by decide, rfl, Or.inl rfl⟩)
  · exact retry_policy_transient_only_bounded_backoff.2.1 0 404 none

/-- C6: if every attempt of the bounded backend sync loop fails after a
successful identity-provider login, the published record keeps the
identity-provider-derived fields, carries `_syncedWithBackend = false` (sync
state `syncFailed`), records a `_syncError` diagnostic with message and
timestamp, and the session stays authenticated: on the trace level, the
in-sequence run login-then-final-sync-failure ends with `currentUser`
non-null, never `unauthenticated`. -/
theorem sync_failure_degrades_without_logout
    (fb : UserRec) (ts : String) (outcomes : Nat → AttemptOutcome)
    (hfail : ∀ i, i < 2 → attemptFails (outcomes i) = true) :
    (syncLoop fb ts outcomes =
      { fb with syncedWithBackend := false, syncPending := false,
                syncError := some { message := attemptMsg (outcomes 1),
                                    timestamp := ts } }) ∧
    (syncLoop fb ts outcomes).uid = fb.uid ∧
    (syncLoop fb ts outcomes).email = fb.email ∧
    (syncLoop fb ts outcomes).name = fb.name ∧
    statusOf (syncLoop fb ts outcomes) = .syncFailed ∧
    (syncLoop fb ts outcomes).syncError =
      some { message := attemptMsg (outcomes 1), timestamp := ts } := by
  have h0 := hfail 0 (by decide)
  have h1 := hfail 1 (by decide)
  have hrun : syncLoop fb ts outcomes =
      { fb with syncedWithBackend := false, syncPending := false,
                syncError := some { message := attemptMsg (outcomes 1),
                                    timestamp := ts } } := by
    unfold syncLoop
    rw [syncLoopGo, dif_pos (by decide)]
    cases o0 : outcomes 0 with
    | respOk p => rw [o0] at h0; simp [attemptFails] at h0
    | respBad m =>
      simp only []
      rw [if_pos (by decide), syncLoopGo, dif_pos (by decide)]
      cases o1 : outcomes 1 with
      | respOk p => rw [o1] at h1; simp [attemptFails] at h1
      | respBad m1 => simp
      | netErr m1 => simp
    | netErr m =>
      simp only []
      rw [if_pos (by decide), syncLoopGo, dif_pos (by decide)]
      cases o1 : outcomes 1 with
      | respOk p => rw [o1] at h1; simp [attemptFails] at h1
      | respBad m1 => simp
      | netErr m1 => simp
  refine ⟨hrun, ?_, ?_, ?_, ?_, ?_⟩
  all_goals rw [hrun]
  simp [statusOf]

/-- Witness for C6: a concrete login whose two sync attempts both fail. -/
theorem sync_failure_degrades_without_logout_witness :
    syncLoop (fbSnapshot "u7" "u7@x" "U7") "2024-01-01T00:00:00Z"
        (fun i => if i = 0 then .netErr "timeout of 15000ms exceeded"
                  else .respBad "Backend sync failed") =
      { fbSnapshot "u7" "u7@x" "U7" with
          syncedWithBackend := false, syncPending := false,
          syncError := some { message := "Backend sync failed",
                              timestamp := "2024-01-01T00:00:00Z" } } := by
  have h := (sync_failure_degrades_without_logout
    (fbSnapshot "u7" "u7@x" "U7") "2024-01-01T00:00:00Z"
    (fun i => if i = 0 then .netErr "timeout of 15000ms exceeded"
              else .respBad "Backend sync failed")
    (by intro i hi; interval_cases i <;> decide)).1
  rw [h]
  simp [attemptMsg]

/-- A fully "dirty" pre-logout service state: authenticated session, timers
running, remember-me stored. -/
def dirtySvc : SvcState :=
  { authHeader := some "Bearer t0", rememberMe := some "true",
    sessionData := [("auth_redirect_pending", "true")],
    refreshTimer := true, warmupTimer := true,
    currentUser := some (fbSnapshot "u9" "u9@x" "U9"), fbSignedIn := true }

/-- C8 counterexample: `AuthService.logout` is not infallible.  When the
remote `signOut` call throws, the catch branch returns a failure and skips
every cleanup step: the remember-me preference, Authorization header, timers
and in-memory session are all left intact. -/
theorem c8_counterexample_signout_failure :
    (serviceLogout false dirtySvc).1 = dirtySvc ∧
    (serviceLogout false dirtySvc).1.rememberMe ≠ none ∧
    (serviceLogout false dirtySvc).1.authHeader ≠ none ∧
    (serviceLogout false dirtySvc).1.refreshTimer = true ∧
    (serviceLogout false dirtySvc).1.warmupTimer = true ∧
    (serviceLogout false dirtySvc).1.currentUser ≠ none ∧
    (serviceLogout false dirtySvc).2 = false := by
  refine ⟨rfl, ?_, ?_, rfl, rfl, ?_, rfl⟩ <;> decide

/-- C8 amended: the cleanup is conditional on the remote sign-out call.  When
`signOut` succeeds, `AuthService.logout` clears the Authorization header, the
remember-me preference and sessionStorage, stops the warmup pinger and the
periodic refresh timer, nulls the in-memory session and reports success; when
`signOut` throws, it performs none of this and returns a failure.  (The
`AuthProvider.logout` wrapper in token.js, by contrast, clears the stored
credentials and the in-memory user unconditionally via its `finally`.) -/
theorem logout_cleanup_conditional_on_signout :
    (∀ st : SvcState,
      (serviceLogout true st).1.authHeader = none ∧
      (serviceLogout true st).1.rememberMe = none ∧
      (serviceLogout true st).1.sessionData = [] ∧
      (serviceLogout true st).1.refreshTimer = false ∧
      (serviceLogout true st).1.warmupTimer = false ∧
      (serviceLogout true st).1.currentUser = none ∧
      (serviceLogout true st).2 = true) ∧
    (∀ st : SvcState, (serviceLogout false st).1 = st ∧
      (serviceLogout false st).2 = false) ∧
    (∀ (apiOk : Bool) (ls : List (String × String)) (u : Option UserRec),
      (providerLogout apiOk ls u).2 = none ∧
      lsGet (providerLogout apiOk ls u).1 ACCESS_TOKEN_KEY = none ∧
      lsGet (providerLogout apiOk ls u).1 REFRESH_TOKEN_KEY = none ∧
      lsGet (providerLogout apiOk ls u).1 USER_KEY = none) := by
  refine ⟨fun st => ⟨rfl, rfl, rfl, rfl, rfl, rfl, rfl⟩,
          fun st => ⟨rfl, rfl⟩, fun apiOk ls u => ⟨rfl, ?_, ?_, ?_⟩⟩
  · exact (tmClearTokensP_spec ls).1
  · exact (tmClearTokensP_spec ls).2.1
  · exact (tmClearTokensP_spec ls).2.2

/-- The interleaving that exhibits the missing epoch check: login publishes
the Firebase snapshot and dispatches the backend sync; logout completes while
the sync is awaited; then the sync resolves successfully. -/
def staleSyncTrace : List Ev :=
  [.signInOk "u1" "u1@x" "U1", .signOutDone,
   .syncOk { uid := "u1", email := "u1@x", name := "U1" }]

/-- C1: the code violates the epoch-discard property.  On the trace
login-publish, logout-completes, sync-resolves, the late sync result is NOT
discarded: `handleSuccessfulAuth` writes the synced record back into
`currentUser` without any generation check and notifies every listener with a
stale authenticated snapshot, so the final state is no longer
unauthenticated. -/
theorem c1_stale_sync_overwrites_logout :
    (runTrace initAuthState staleSyncTrace).currentUser =
      some (backendSnapshot { uid := "u1", email := "u1@x", name := "U1" }) ∧
    (runTrace initAuthState staleSyncTrace).currentUser ≠ none ∧
    (runTrace initAuthState staleSyncTrace).fbUser = none ∧
    (runTrace initAuthState staleSyncTrace).notifications =
      [some (fbSnapshot "u1" "u1@x" "U1"), none,
       some (backendSnapshot { uid := "u1", email := "u1@x", name := "U1" })] := by
  refine ⟨rfl, ?_, rfl, rfl⟩
  decide

/-- C5 counterexample: a reachable state violating the mutual-exclusivity
invariant.  When the identity-provider sign-in succeeds but the initial
`getIdToken()` fetch throws, `handleSuccessfulAuth`'s outer catch leaves
`currentUser = null` while the provider session (`auth.currentUser`) remains
signed in: identity is non-null yet the published snapshot is null. -/
theorem c5_counterexample_token_fetch_failure :
    (runTrace initAuthState [.signInTokenFail "u2"]).fbUser = some "u2" ∧
    (runTrace initAuthState [.signInTokenFail "u2"]).currentUser = none ∧
    ¬ sessionInv (runTrace initAuthState [.signInTokenFail "u2"]) := by
  refine ⟨rfl, rfl, ?_⟩
  decide

/-- C5 amended: the invariant holds on clean runs.  For every run in which
the initial token fetch never fails and no sync continuation resolves after
the provider session is gone (no stale result applied after logout), every
reachable state satisfies `identity == null ⇔ currentUser == null`, and every
non-null published snapshot carries a sync status among syncing, synced and
syncFailed.  The invariant fails on the excluded runs (see the
counterexample and the C1 theorem). -/
theorem session_invariant_on_clean_runs (es : List Ev) (st : AuthMState)
    (hinv : sessionInv st) (hclean : cleanRun st es = true) :
    sessionInv (runTrace st es) ∧
    (∀ u : UserRec, (runTrace st es).currentUser = some u →
      statusOf u = .syncing ∨ statusOf u = .synced ∨ statusOf u = .syncFailed) := by
  have hstatus : ∀ u : UserRec,
      statusOf u = .syncing ∨ statusOf u = .synced ∨ statusOf u = .syncFailed := by
    intro u
    unfold statusOf
    by_cases h1 : u.syncPending = true
    · simp [h1]
    · by_cases h2 : u.syncedWithBackend = true <;> simp [h1, h2]
  refine ⟨?_, fun u _ => hstatus u⟩
  induction es generalizing st with
  | nil => exact hinv
  | cons e rest ih =>
    cases e with
    | signInOk uid email name =>
      simp only [cleanRun, Bool.true_and] at hclean
      refine ih (step st (.signInOk uid email name)) ?_ hclean
      simp [step, sessionInv]
    | signInTokenFail uid =>
      simp only [cleanRun, Bool.false_and] at hclean
      exact absurd hclean (by simp)
    | syncOk p =>
      simp only [cleanRun, Bool.and_eq_true] at hclean
      obtain ⟨hev, hrest⟩ := hclean
      rw [Option.isSome_iff_exists] at hev
      obtain ⟨uid, hfb⟩ := hev
      refine ih (step st (.syncOk p)) ?_ hrest
      cases hin : st.inflightSync with
      | none =>
        simp only [step, hin]
        exact hinv
      | some u0 =>
        simp only [step, hin]
        constructor
        · intro h
          rw [hfb] at h
          exact Option.noConfusion h
        · intro h
          exact Option.noConfusion h
    | syncFail msg ts =>
      simp only [cleanRun, Bool.and_eq_true] at hclean
      obtain ⟨hev, hrest⟩ := hclean
      rw [Option.isSome_iff_exists] at hev
      obtain ⟨uid, hfb⟩ := hev
      refine ih (step st (.syncFail msg ts)) ?_ hrest
      cases hin : st.inflightSync with
      | none =>
        simp only [step, hin]
        exact hinv
      | some u0 =>
        cases hcu : st.currentUser with
        | none =>
          have hfn : st.fbUser = none := hinv.mpr hcu
          rw [hfn] at hfb
          exact Option.noConfusion hfb
        | some u1 =>
          simp only [step, hin, hcu]
          constructor
          · intro h
            rw [hfb] at h
            exact Option.noConfusion h
          · intro h
            exact Option.noConfusion h
    | signOutDone =>
      simp only [cleanRun, Bool.true_and] at hclean
      refine ih (step st .signOutDone) ?_ hclean
      simp [step, sessionInv]

/-- Witness for the amended C5 theorem: a concrete clean run — login, sync
success, logout — whose every state, including the final one, satisfies the
invariant. -/
theorem session_invariant_on_clean_runs_witness :
    sessionInv initAuthState ∧
    cleanRun initAuthState
      [.signInOk "u3" "u3@x" "U3",
       .syncOk { uid := "u3", email := "u3@x", name := "U3" }, .signOutDone] = true ∧
    sessionInv (runTrace initAuthState
      [.signInOk "u3" "u3@x" "U3",
       .syncOk { uid := "u3", email := "u3@x", name := "U3" }, .signOutDone]) := by
  refine ⟨by decide, by decide, ?_⟩
  exact (session_invariant_on_clean_runs
    [.signInOk "u3" "u3@x" "U3",
     .syncOk { uid := "u3", email := "u3@x", name := "U3" }, .signOutDone]
    initAuthState (by decide) (by decide)).1

end CineBrain
